import Mathlib

/-!
Shallow embedding of `plugins/check_safenet_hsm.py` (Nagios health check for
a SafeNet Luna PCI card).

Modelling conventions:
* Python floats are modelled as `ℚ` (all captured numbers are decimal integer
  literals, so the arithmetic is exact up to float rounding, which none of the
  thresholds here exercise at a representability boundary).
* `sys.exit` via `nagios_exit(msg, code)` is modelled as an `exit` constructor
  carrying the printed message and the exit code.
* An uncaught Python exception (KeyError, ZeroDivisionError, AttributeError,
  OSError from Popen) is modelled as an `err` constructor: the process dies
  with a traceback instead of producing a verdict.
* The outcome of one external `lunadiag` invocation is abstracted as
  `RunOutcome` (timeout via SIGALRM, launch failure from Popen, or captured
  stdout/stderr); the engine is parametrised by a runner oracle.
* Regular expressions (`re.search`) are embedded by a small executable
  matcher over a regex syntax `Rx`; searches are existence checks, so the
  fuel-bounded backtracking below is adequate (fuel is sized so that every
  match attempt that consumes at least one character per star iteration
  completes; star iterations that consume nothing cannot change the set of
  reachable remainders and are skipped).
-/

namespace SafenetHsm

/-! ### Nagios constants (`CheckHsmBase`) -/

def NAGIOS_OK : Nat := 0
def NAGIOS_WARNING : Nat := 1
def NAGIOS_CRITICAL : Nat := 2
def NAGIOS_UNKNOWN : Nat := 3

def VALID_NAGIOS_RETCODES : List Int := [0, 1, 2, 3]

def TIME_LIMIT : Nat := 3

def DISK_LIMIT_WARN : ℚ := 85
def DISK_LIMIT_CRITICAL : ℚ := 95

/-! ### Character classes of Python 2 `re` (no re.UNICODE flag) -/

/-- Python `\s` = `[ \t\n\r\f\v]`. -/
def pySpace (c : Char) : Bool :=
  c = ' ' || c = '\t' || c = '\n' || c = '\r' || c = '\x0b' || c = '\x0c'

/-- Python `\d` = `[0-9]`. -/
def pyDigit (c : Char) : Bool := '0' ≤ c && c ≤ '9'

/-- Python `\w` = `[a-zA-Z0-9_]`. -/
def pyWord (c : Char) : Bool :=
  ('a' ≤ c && c ≤ 'z') || ('A' ≤ c && c ≤ 'Z') || pyDigit c || c = '_'

/-! ### A small regex syntax, covering the patterns in `luna_info` -/

inductive Rx where
  | eps : Rx
  | dot : Rx
  | ch (c : Char) : Rx
  | digit : Rx
  | word : Rx
  | space : Rx
  | seq (a b : Rx) : Rx
  | alt (a b : Rx) : Rx
  | star (a : Rx) : Rx
deriving DecidableEq

/-- Does the atomic class accept this character?  `.` excludes newline. -/
def Rx.atomMatch : Rx → Char → Bool
  | .dot, c => c ≠ '\n'
  | .ch c0, c => c = c0
  | .digit, c => pyDigit c
  | .word, c => pyWord c
  | .space, c => pySpace c
  | _, _ => false

/-- All remainders of the input after a match of `rx` at its front.
Fuel-bounded; star iterations must consume input (consuming nothing cannot
produce a new remainder), which also makes the recursion terminate. -/
def Rx.matchP (fuel : Nat) (rx : Rx) (cs : List Char) : List (List Char) :=
  match fuel with
  | 0 => []
  | fuel + 1 =>
    match rx with
    | .eps => [cs]
    | .dot | .ch _ | .digit | .word | .space =>
      match cs with
      | [] => []
      | c :: rest => if rx.atomMatch c then [rest] else []
    | .seq a b => (Rx.matchP fuel a cs).flatMap (fun cs2 => Rx.matchP fuel b cs2)
    | .alt a b => Rx.matchP fuel a cs ++ Rx.matchP fuel b cs
    | .star a =>
      cs :: (Rx.matchP fuel a cs).flatMap
        (fun cs2 => if cs2.length < cs.length then Rx.matchP fuel (.star a) cs2 else [])

/-- Number of constructors: the depth of any useful match attempt is at most
`size * (length + 1)`, see the fuel argument in `Rx.search`. -/
def Rx.size : Rx → Nat
  | .eps | .dot | .ch _ | .digit | .word | .space => 1
  | .seq a b => a.size + b.size + 1
  | .alt a b => a.size + b.size + 1
  | .star a => a.size + 1

/-- `re.search`: does the pattern match starting at some position? -/
def Rx.searchList (fuel : Nat) (rx : Rx) : List Char → Bool
  | [] => !(Rx.matchP fuel rx []).isEmpty
  | c :: rest => !(Rx.matchP fuel rx (c :: rest)).isEmpty || Rx.searchList fuel rx rest

def Rx.search (rx : Rx) (s : String) : Bool :=
  Rx.searchList (rx.size * (s.data.length + 1) + 1) rx s.data

/-- A literal string as a regex. -/
def rlit (s : String) : Rx :=
  s.data.foldr (fun c acc => Rx.seq (Rx.ch c) acc) Rx.eps

/-- `r+` as `r r*`. -/
def rplus (r : Rx) : Rx := Rx.seq r (Rx.star r)

/-- `r{n}` as an n-fold sequence. -/
def rreps : Nat → Rx → Rx
  | 0, _ => Rx.eps
  | n + 1, r => Rx.seq r (rreps n r)

/-! ### The probe catalog (`CheckHsmBase.luna_info` / `DiagCmd`) -/

/-- `\w\w \w\w \w\w \w\w` -/
def hexQuad : Rx :=
  Rx.seq (rreps 2 Rx.word) (Rx.seq (Rx.ch ' ')
    (Rx.seq (rreps 2 Rx.word) (Rx.seq (Rx.ch ' ')
      (Rx.seq (rreps 2 Rx.word) (Rx.seq (Rx.ch ' ') (rreps 2 Rx.word))))))

/-- `drivers .+ detected` -/
def driverPat : Rx :=
  Rx.seq (rlit "drivers ") (Rx.seq (rplus Rx.dot) (rlit " detected"))

/-- `Test passed` -/
def testPassedPat : Rx := rlit "Test passed"

/-- `Firmware: \d+.\d` (the `.` is an unescaped any-character) -/
def firmwarePat : Rx :=
  Rx.seq (rlit "Firmware: ") (Rx.seq (rplus Rx.digit) (Rx.seq Rx.dot Rx.digit))

/-- `Protocol level: \d+` -/
def protocolPat : Rx := Rx.seq (rlit "Protocol level: ") (rplus Rx.digit)

/-- `lunadiag\s+version \d+` -/
def lunadiagVersionPat : Rx :=
  Rx.seq (rlit "lunadiag") (Rx.seq (rplus Rx.space)
    (Rx.seq (rlit "version ") (rplus Rx.digit)))

/-- `Error\s+Flag\s+=\s+0\s+` -/
def tsvPat : Rx :=
  Rx.seq (rlit "Error") (Rx.seq (rplus Rx.space)
    (Rx.seq (rlit "Flag") (Rx.seq (rplus Rx.space)
      (Rx.seq (Rx.ch '=') (Rx.seq (rplus Rx.space)
        (Rx.seq (Rx.ch '0') (rplus Rx.space)))))))

/-- `\w{4}: \w\w \w\w \w\w \w\w` -/
def dualportDumpPat : Rx :=
  Rx.seq (rreps 4 Rx.word) (Rx.seq (rlit ": ") hexQuad)

/-- `\w{4,}: \w\w \w\w \w\w \w\w` -/
def dualportCmdPat : Rx :=
  Rx.seq (rreps 4 Rx.word) (Rx.seq (Rx.star Rx.word) (Rx.seq (rlit ": ") hexQuad))

/-- `Free:\s+\d{5,}` -/
def freePat : Rx :=
  Rx.seq (rlit "Free:") (Rx.seq (rplus Rx.space)
    (Rx.seq (rreps 5 Rx.digit) (Rx.star Rx.digit)))

/-- One entry of `luna_info`: label, acceptance pattern, and the optional
name of a custom verify method (the `"verify"` key). -/
structure LunaEntry where
  label : String
  acptPattern : Rx
  verify : Option String := none
deriving DecidableEq

/-- `CheckHsmBase.luna_info`, keyed by the `DiagCmd` numbers.  The order is
the CPython 2 small-int dict iteration order (ascending slot = ascending
key), which here coincides with the literal order of the source. -/
def luna_info : List (Nat × LunaEntry) :=
  [ (2, { label := "Driver Test", acptPattern := driverPat }),
    (3, { label := "Communication Test", acptPattern := testPassedPat }),
    (4, { label := "Read Firmware LevelTest", acptPattern := firmwarePat }),
    (5, { label := "Read Protocol Level Test", acptPattern := protocolPat }),
    (6, { label := "Read Capabilities Test", acptPattern := lunadiagVersionPat }),
    (7, { label := "Read Token Policies Test", acptPattern := lunadiagVersionPat }),
    (8, { label := "Read TSV Test", acptPattern := tsvPat }),
    (9, { label := "Read Dualport Test", acptPattern := dualportDumpPat }),
    (10, { label := "Read Dualport Command Test", acptPattern := dualportCmdPat }),
    (11, { label := "Token Info Test", acptPattern := freePat,
           verify := some "verify_token_info" }),
    (12, { label := "Mechanism Info Test", acptPattern := testPassedPat }),
    (16, { label := "Read Debug/Trace Information Test", acptPattern := lunadiagVersionPat }) ]

/-- Python `CheckHsmBase.luna_info[diag]`, as a total lookup; `none` models
the `KeyError` case. -/
def lunaLookup (diag : Nat) : Option LunaEntry :=
  luna_info.lookup diag

/-- `CheckHsmBase.luna_info.keys()`. -/
def lunaKeys : List Nat := luna_info.map Prod.fst

/-! ### `CheckHsmBase.__init__`: the shared mutable default `diag_list` -/

/-- One construction of `CheckHsm()` with the default `diag_list=[]`
argument: Python evaluates the default list once, so `cur` is the current
content of that shared list; it is populated from the catalog only when
still empty, and the constructed object aliases it. -/
def initDiagList (cur : List Nat) : List Nat :=
  if cur.isEmpty then cur ++ lunaKeys else cur

/-- The shared default list after `n` constructions of `CheckHsm()`
in one process. -/
def constructN : Nat → List Nat
  | 0 => []
  | n + 1 => initDiagList (constructN n)

/-! ### Python faults that the source can raise uncaught -/

/-- An uncaught Python exception: `KeyError` (dict lookup), float
`ZeroDivisionError`, `AttributeError` (missing class attribute), and
`OSError` (raised by `subprocess.Popen` when the binary cannot be started;
the `try` block catches only `Alarm`). -/
inductive PyErr where
  | keyError (key : String) : PyErr
  | zeroDivisionError : PyErr
  | attributeError (name : String) : PyErr
  | osError : PyErr
deriving DecidableEq

/-! ### `CheckHsmBase.verify_token_info`: the storage-capacity classifier -/

/-- Is `pat` the leading segment of `cs`? -/
def leadsWith : List Char → List Char → Bool
  | [], _ => true
  | _ :: _, [] => false
  | p :: ps, c :: rest => p = c && leadsWith ps rest

/-- `re.search("(User|SO) Container Storage Info", line)`: the leftmost
match position wins; the captured group is returned. -/
def findHeader : List Char → Option String
  | [] => none
  | c :: rest =>
    if leadsWith "User Container Storage Info".data (c :: rest) then some "User"
    else if leadsWith "SO Container Storage Info".data (c :: rest) then some "SO"
    else findHeader rest

/-- `re.search(r"^\s*$", line)`: the whole line is whitespace. -/
def isBlankLine (line : String) : Bool := line.data.all pySpace

def digitsVal (ds : List Char) : Nat :=
  ds.foldl (fun a c => a * 10 + (c.toNat - '0'.toNat)) 0

/-- The `:\s+(\d+)` tail of the Total/Used pattern: at least one whitespace
character, then a maximal nonempty digit run (the captured group). -/
def tuAfterColon (cs : List Char) : Option Nat :=
  let sp := cs.takeWhile pySpace
  if sp.isEmpty then none
  else
    let ds := (cs.drop sp.length).takeWhile pyDigit
    if ds.isEmpty then none else some (digitsVal ds)

/-- `re.search("(Total|Used):\s+(\d+)", line)`: leftmost match; returns the
kind ("Total" or "Used") and the captured number. -/
def findTU : List Char → Option (String × Nat)
  | [] => none
  | c :: rest =>
    match
      (if leadsWith "Total:".data (c :: rest) then
        (tuAfterColon ((c :: rest).drop 6)).map (fun v => ("Total", v))
      else if leadsWith "Used:".data (c :: rest) then
        (tuAfterColon ((c :: rest).drop 5)).map (fun v => ("Used", v))
      else none) with
    | some r => some r
    | none => findTU rest

/-- The `space_info` dict: only the keys "Total" and "Used" ever occur. -/
structure SpaceInfo where
  total : Option ℚ := none
  used : Option ℚ := none
deriving DecidableEq

/-- `"%6.2f" % q` for the nonnegative rationals that occur here: two
decimals (half-up rounding of the exact rational stands in for the printf
rounding of the nearest double) padded to width 6. -/
def fmt62 (q : ℚ) : String :=
  let hn : Nat := (⌊q * 100 + 1 / 2⌋).toNat
  let fr : Nat := hn % 100
  let s : String :=
    toString (hn / 100) ++ "." ++ (if fr < 10 then "0" else "") ++ toString fr
  String.mk (List.replicate (6 - s.length) ' ') ++ s

/-- `"HSM %s disk usage: %6.2f exceeded threshold!!!" % (state, pct)` -/
def diskMsg (state : String) (pct : ℚ) : String :=
  "HSM " ++ state ++ " disk usage: " ++ fmt62 pct ++ " exceeded threshold!!!"

/-- Outcome of `verify_token_info`: it can `sys.exit` via `nagios_exit`,
return a retcode, or die on an uncaught exception. -/
inductive VtiResult where
  | exit (msg : String) (code : Nat) : VtiResult
  | ret (code : Nat) : VtiResult
  | err (e : PyErr) : VtiResult
deriving DecidableEq

/-- The line loop of `verify_token_info`, carrying `state` and
`space_info`.  A header line sets the state and `continue`s (it does NOT
reset `space_info`); a blank line inside a context resets both; a
`Total:`/`Used:` line stores the captured float, and a `Used:` line
additionally computes `pct = 100.0 * used / total` — a missing `Total` key
raises `KeyError`, a zero one `ZeroDivisionError`, and the warning branch
references the nonexistent attribute `CheckHsmBase.NAGIOS_WARN`. -/
def vtiGo : List String → Option String → SpaceInfo → VtiResult
  | [], _, _ => .ret NAGIOS_OK
  | line :: rest, state, info =>
    match findHeader line.data with
    | some s => vtiGo rest (some s) info
    | none =>
      match state with
      | none => vtiGo rest none info
      | some st =>
        if isBlankLine line then vtiGo rest none {}
        else
          match findTU line.data with
          | none => vtiGo rest (some st) info
          | some (ty, v) =>
            if ty = "Used" then
              let info2 : SpaceInfo := { info with used := some (v : ℚ) }
              match info2.total with
              | none => .err (.keyError "Total")
              | some t =>
                if t = 0 then .err .zeroDivisionError
                else
                  let pct : ℚ := 100 * (v : ℚ) / t
                  let errmsg := diskMsg st pct
                  if pct ≥ DISK_LIMIT_CRITICAL then .exit errmsg NAGIOS_CRITICAL
                  else if pct ≥ DISK_LIMIT_WARN then .err (.attributeError "NAGIOS_WARN")
                  else vtiGo rest (some st) info2
            else vtiGo rest (some st) { info with total := some (v : ℚ) }

/-- `CheckHsmBase.verify_token_info(hsm_output)`. -/
def verify_token_info (hsm_output : String) : VtiResult :=
  vtiGo (hsm_output.splitOn "\n") none {}

/-! ### `CheckHsmBase.verify`: the probe loop -/

/-- The outcome of one `lunadiag` invocation, as observed by the loop body:
the SIGALRM `Alarm` fired during `communicate()`, or `Popen` raised
`OSError`, or the process completed with captured stdout/stderr. -/
inductive RunOutcome where
  | timeout : RunOutcome
  | launchError : RunOutcome
  | done (stdout stderr : String) : RunOutcome
deriving DecidableEq

/-- What one iteration of the `for diag in self.diag_list` body does:
continue the loop, `nagios_exit`, or die on an uncaught exception. -/
inductive StepOut where
  | ok : StepOut
  | exit (msg : String) (code : Nat) : StepOut
  | err (e : PyErr) : StepOut
deriving DecidableEq

def StepOut.isErr : StepOut → Bool
  | .err _ => true
  | _ => false

/-- Lines 224-228: how the return value of a custom verify method is handled.
`retcode` is `Int` because the extension point is dynamically typed; any
non-integer return compares unequal to every member of
`VALID_NAGIOS_RETCODES`, which the integer model subsumes. -/
def dispatchRetcode (errmsg : String) (retcode : Int) : StepOut :=
  if retcode ≠ (NAGIOS_OK : Int) then
    if retcode ∈ VALID_NAGIOS_RETCODES then .exit errmsg retcode.toNat
    else .exit errmsg NAGIOS_CRITICAL
  else .ok

/-- `getattr(self, custom_verify)` followed by the call: the only custom
verify name in the catalog is `"verify_token_info"`; any other name would
raise `AttributeError` at the `getattr`. -/
def runCustom (name : String) (hsm_output : String) : VtiResult :=
  if name = "verify_token_info" then verify_token_info hsm_output
  else .err (.attributeError name)

/-- One iteration of the loop body of `CheckHsmBase.verify` for probe id
`diag`, given the outcome of the invocation.  Catalog lookups happen after the
process has been invoked (lines 204 and 215), so an unknown id raises
`KeyError` only then. -/
def probeStep (diag : Nat) (r : RunOutcome) : StepOut :=
  match r with
  | .timeout =>
    match lunaLookup diag with
    | none => .err (.keyError (toString diag))
    | some e =>
      .exit (e.label ++ " EXCEEDED time limit of " ++ toString TIME_LIMIT ++ " secs!!!")
        NAGIOS_CRITICAL
  | .launchError => .err .osError
  | .done out errout =>
    match lunaLookup diag with
    | none => .err (.keyError (toString diag))
    | some e =>
      let errmsg := e.label ++ " FAILED."
      if errout ≠ "" then .exit errmsg NAGIOS_CRITICAL
      else
        match e.verify with
        | some name =>
          match runCustom name out with
          | .exit m c => .exit m c
          | .err ex => .err ex
          | .ret rc => dispatchRetcode errmsg (rc : Int)
        | none =>
          if e.acptPattern.search out then .ok else .exit errmsg NAGIOS_CRITICAL

/-- Result of `CheckHsmBase.verify` (and of `main`): a `nagios_exit`
(printed message + exit code), a plain return of a retcode, or an uncaught
exception. -/
inductive EngineResult where
  | exit (msg : String) (code : Nat) : EngineResult
  | ret (code : Nat) : EngineResult
  | err (e : PyErr) : EngineResult
deriving DecidableEq

/-- `CheckHsmBase.verify`, parametrised by the runner oracle; the second
component counts external invocations (one `Popen` attempt per loop
iteration, which is also the mock-runner call count). -/
def verifyRun (runner : Nat → RunOutcome) : List Nat → Nat → EngineResult × Nat
  | [], n => (.ret NAGIOS_OK, n)
  | diag :: rest, n =>
    match probeStep diag (runner diag) with
    | .ok => verifyRun runner rest (n + 1)
    | .exit m c => (.exit m c, n + 1)
    | .err e => (.err e, n + 1)

/-- `main()`: run `verify`; if it returns (it only returns `NAGIOS_OK`),
print "All OK" and exit 0; a `nagios_exit` inside `verify` or an uncaught
exception passes through. -/
def mainRun (runner : Nat → RunOutcome) (diagList : List Nat) : EngineResult × Nat :=
  match verifyRun runner diagList 0 with
  | (.ret _, n) => (.exit "All OK" NAGIOS_OK, n)
  | other => other

/-! ### Helper lemmas -/

theorem verifyRun_append_ok (runner : Nat → RunOutcome) (pre rest : List Nat)
    (h : ∀ x ∈ pre, probeStep x (runner x) = StepOut.ok) (n : Nat) :
    verifyRun runner (pre ++ rest) n = verifyRun runner rest (n + pre.length) := by
  induction pre generalizing n with
  | nil => simp
  | cons x xs ih =>
    have hx : probeStep x (runner x) = StepOut.ok := h x (List.mem_cons_self x xs)
    have hxs : ∀ y ∈ xs, probeStep y (runner y) = StepOut.ok :=
      fun y hy => h y (List.mem_cons_of_mem x hy)
    simp only [List.cons_append, verifyRun, hx, List.append_eq]
    rw [ih hxs]
    congr 1
    simp only [List.length_cons]
    omega

theorem verifyRun_not_err (runner : Nat → RunOutcome) (l : List Nat)
    (h : ∀ d ∈ l, (probeStep d (runner d)).isErr = false) (n : Nat) :
    (verifyRun runner l n).1 = EngineResult.ret NAGIOS_OK
    ∨ ∃ m c, (verifyRun runner l n).1 = EngineResult.exit m c := by
  induction l generalizing n with
  | nil => left; rfl
  | cons d rest ih =>
    have hd := h d (List.mem_cons_self d rest)
    have hrest : ∀ y ∈ rest, (probeStep y (runner y)).isErr = false :=
      fun y hy => h y (List.mem_cons_of_mem d hy)
    cases hs : probeStep d (runner d) with
    | ok => simpa [verifyRun, hs] using ih hrest (n + 1)
    | exit m c => right; exact ⟨m, c, by simp [verifyRun, hs]⟩
    | err e => rw [hs] at hd; simp [StepOut.isErr] at hd

theorem lookup_isSome_iff_mem_keys {β : Type} (k : Nat) (l : List (Nat × β)) :
    (l.lookup k).isSome ↔ k ∈ l.map Prod.fst := by
  induction l with
  | nil => simp [List.lookup]
  | cons p rest ih =>
    obtain ⟨a, b⟩ := p
    by_cases h : k = a
    · subst h; simp [List.lookup]
    · have hb : (k == a) = false := by simpa using h
      simp [List.lookup, hb, h, ih]

/-! ### Claims -/

/-- C1: if the probe at position k yields a non-OK verdict (a `nagios_exit`
with the message and severity of that probe) and every probe before it is OK,
`verify` exits with exactly that verdict after exactly k+1 runner
invocations; the probes after position k are never consulted (`post` is
arbitrary and absent from the result). -/
theorem verify_fail_fast (runner : Nat → RunOutcome) (pre : List Nat) (d : Nat)
    (post : List Nat) (m : String) (c : Nat)
    (hpre : ∀ x ∈ pre, probeStep x (runner x) = StepOut.ok)
    (hd : probeStep d (runner d) = StepOut.exit m c) :
    verifyRun runner (pre ++ d :: post) 0 = (EngineResult.exit m c, pre.length + 1) := by
  rw [verifyRun_append_ok runner pre _ hpre 0]
  simp [verifyRun, hd]

/-- Witness for C1: probe 3 passes, probe 12 fails on stderr, probe 2 is
never reached; two invocations. -/
theorem verify_fail_fast_witness :
    verifyRun
      (fun d => if d = 12 then RunOutcome.done "" "boom" else RunOutcome.done "Test passed" "")
      [3, 12, 2] 0
      = (EngineResult.exit "Mechanism Info Test FAILED." 2, 2) := by
  have h := verify_fail_fast
    (fun d => if d = 12 then RunOutcome.done "" "boom" else RunOutcome.done "Test passed" "")
    [3] 12 [2] "Mechanism Info Test FAILED." 2 (by decide) (by decide)
  simpa using h

/-- C2: if every selected probe classifies OK, `verify` runs the whole
sequence (as many invocations as probes), returns `NAGIOS_OK`, and `main`
prints "All OK" and exits 0. -/
theorem verify_all_ok (runner : Nat → RunOutcome) (l : List Nat)
    (h : ∀ d ∈ l, probeStep d (runner d) = StepOut.ok) :
    verifyRun runner l 0 = (EngineResult.ret NAGIOS_OK, l.length)
    ∧ mainRun runner l = (EngineResult.exit "All OK" NAGIOS_OK, l.length) := by
  have h1 : verifyRun runner l 0 = (EngineResult.ret NAGIOS_OK, l.length) := by
    have h2 := verifyRun_append_ok runner l [] h 0
    simpa [verifyRun] using h2
  exact ⟨h1, by simp [mainRun, h1]⟩

/-- A runner whose output satisfies the acceptance criterion of every probe. -/
def okRunner : Nat → RunOutcome := fun d =>
  if d = 2 then .done "drivers x detected" ""
  else if d = 4 then .done "Firmware: 6.2" ""
  else if d = 5 then .done "Protocol level: 5" ""
  else if d = 8 then .done "Error Flag = 0 " ""
  else if d = 9 then .done "abcd: 00 11 22 33" ""
  else if d = 10 then .done "abcde: 00 11 22 33" ""
  else if d = 11 then .done "" ""
  else if d = 6 || d = 7 || d = 16 then .done "lunadiag version 7" ""
  else .done "Test passed" ""

/-- Witness for C2: the full default battery of 12 probes, all OK. -/
theorem verify_all_ok_witness :
    verifyRun okRunner lunaKeys 0 = (EngineResult.ret NAGIOS_OK, 12)
    ∧ mainRun okRunner lunaKeys = (EngineResult.exit "All OK" NAGIOS_OK, 12) := by
  have h := verify_all_ok okRunner lunaKeys (by with_unfolding_all decide)
  simpa using h

/-- C7: a non-empty captured stderr forces an immediate CRITICAL exit with
message "`<label>` FAILED.", before the acceptance pattern or the custom
classifier are ever consulted (`out` is arbitrary). -/
theorem stderr_forces_failed (diag : Nat) (e : LunaEntry) (out errout : String)
    (he : lunaLookup diag = some e) (hne : errout ≠ "") :
    probeStep diag (RunOutcome.done out errout)
      = StepOut.exit (e.label ++ " FAILED.") NAGIOS_CRITICAL := by
  simp [probeStep, he, hne]

/-- Witness for C7: the stdout of probe 3 matches its acceptance pattern, yet
the non-empty stderr still yields CRITICAL. -/
theorem stderr_forces_failed_witness :
    probeStep 3 (RunOutcome.done "Test passed" "boom")
      = StepOut.exit "Communication Test FAILED." 2 := by
  have h := stderr_forces_failed 3
    { label := "Communication Test", acptPattern := testPassedPat }
    "Test passed" "boom" (by decide) (by decide)
  simpa using h

/-- C8: the return value of a custom classifier, when non-OK, exits with
exactly that severity if it is one of the valid Nagios severities
{1, 2, 3}, and defaults to CRITICAL otherwise. -/
theorem custom_retcode_policy (errmsg : String) (rc : Int) (h0 : rc ≠ 0) :
    dispatchRetcode errmsg rc
      = if rc = 1 ∨ rc = 2 ∨ rc = 3 then StepOut.exit errmsg rc.toNat
        else StepOut.exit errmsg NAGIOS_CRITICAL := by
  simp only [dispatchRetcode, VALID_NAGIOS_RETCODES, NAGIOS_OK, NAGIOS_CRITICAL,
    List.mem_cons, List.not_mem_nil, or_false]
  simp only [Nat.cast_zero, ne_eq, h0, not_false_eq_true, if_true]
  by_cases h1 : rc = 1
  · simp [h1]
  · by_cases h2 : rc = 2
    · simp [h2]
    · by_cases h3 : rc = 3
      · simp [h3]
      · simp [h0, h1, h2, h3]

/-- Witness for C8: retcode 7 is not a valid severity and defaults to
CRITICAL. -/
theorem custom_retcode_policy_witness :
    dispatchRetcode "Token Info Test FAILED." 7
      = StepOut.exit "Token Info Test FAILED." 2 := by
  have h := custom_retcode_policy "Token Info Test FAILED." 7 (by decide)
  simpa using h

/-- C3 counterexample: with probe id 99 in the configuration the engine
does not produce a Verdict: the `KeyError` from the catalog lookup
propagates out of `verify` and `main` as an unhandled fault (after one
process invocation). -/
theorem engine_fault_escapes_cex :
    mainRun (fun _ => RunOutcome.done "x" "") [99]
      = (EngineResult.err (PyErr.keyError "99"), 1) := by decide

/-- C3 amended: only timeouts, stderr failures, pattern mismatches and
classifier retcodes are converted into a terminal Verdict; provided no
loop iteration raises an exception (unknown probe id, `Popen` launch
failure, or a token-info classifier fault), the externally
visible behavior of the engine is exactly one Verdict (a message/exit-code pair). -/
theorem engine_single_verdict_of_no_fault (runner : Nat → RunOutcome) (l : List Nat)
    (h : ∀ d ∈ l, (probeStep d (runner d)).isErr = false) :
    ∃ m c, (mainRun runner l).1 = EngineResult.exit m c := by
  rcases verifyRun_not_err runner l h 0 with h1 | ⟨m, c, h1⟩
  · refine ⟨"All OK", NAGIOS_OK, ?_⟩
    unfold mainRun
    rcases hv : verifyRun runner l 0 with ⟨r, n⟩
    rw [hv] at h1
    simp at h1
    simp [h1]
  · refine ⟨m, c, ?_⟩
    unfold mainRun
    rcases hv : verifyRun runner l 0 with ⟨r, n⟩
    rw [hv] at h1
    simp at h1
    simp [h1]

/-- Witness for C3 amended: one OK probe, one clean verdict. -/
theorem engine_single_verdict_of_no_fault_witness :
    ∃ m c, (mainRun (fun _ => RunOutcome.done "Test passed" "") [3]).1
      = EngineResult.exit m c :=
  engine_single_verdict_of_no_fault (fun _ => RunOutcome.done "Test passed" "") [3]
    (by decide)

/-- C4: the storage-capacity classifier at `Total: 1000`: `Used: 960`
(96%) exits CRITICAL and `Used: 100` (10%) is OK as specified, but
`Used: 900` (90%, the WARNING band) evaluates
`CheckHsmBase.NAGIOS_WARN` — an attribute the class does not define
(it defines `NAGIOS_WARNING`) — so the code raises `AttributeError`
instead of exiting WARNING. -/
theorem token_info_warn_branch_crashes :
    verify_token_info "User Container Storage Info\nTotal: 1000\nUsed: 960"
      = VtiResult.exit "HSM User disk usage:  96.00 exceeded threshold!!!" NAGIOS_CRITICAL
    ∧ verify_token_info "User Container Storage Info\nTotal: 1000\nUsed: 900"
      = VtiResult.err (PyErr.attributeError "NAGIOS_WARN")
    ∧ verify_token_info "User Container Storage Info\nTotal: 1000\nUsed: 100"
      = VtiResult.ret NAGIOS_OK := by
  refine ⟨?_, ?_, ?_⟩ <;> with_unfolding_all decide

/-- C5 counterexample: a `Used:` line with no captured `Total` raises
`KeyError`, and one with `Total: 0` raises `ZeroDivisionError`; neither
produces the claimed CRITICAL malformed-output verdict. -/
theorem token_info_malformed_cex :
    verify_token_info "User Container Storage Info\nUsed: 5"
      = VtiResult.err (PyErr.keyError "Total")
    ∧ verify_token_info "User Container Storage Info\nTotal: 0\nUsed: 5"
      = VtiResult.err PyErr.zeroDivisionError := by
  refine ⟨?_, ?_⟩ <;> with_unfolding_all decide

/-- C5 amended: for any line matching `Used: <n>` inside a container
context (not a header, not blank), a missing `Total` key raises an
uncaught `KeyError` and a zero `Total` an uncaught `ZeroDivisionError`;
the fault propagates out of the classifier instead of being converted to
a CRITICAL verdict. -/
theorem token_info_used_without_total (line : String) (rest : List String)
    (st : String) (info : SpaceInfo) (v : Nat)
    (hh : findHeader line.data = none) (hb : isBlankLine line = false)
    (ht : findTU line.data = some ("Used", v)) :
    (info.total = none →
      vtiGo (line :: rest) (some st) info = VtiResult.err (PyErr.keyError "Total"))
    ∧ (info.total = some 0 →
      vtiGo (line :: rest) (some st) info = VtiResult.err PyErr.zeroDivisionError) := by
  constructor <;> intro h0 <;> simp [vtiGo, hh, hb, ht, h0]

/-- Witness for C5 amended: the `Used: 5` line under a `User` context with
no captured Total. -/
theorem token_info_used_without_total_witness :
    vtiGo ["Used: 5"] (some "User") {} = VtiResult.err (PyErr.keyError "Total") := by
  have h := token_info_used_without_total "Used: 5" [] "User" {} 5
    (by decide) (by decide) (by decide)
  exact h.1 rfl

/-- C6 counterexample: configuration [99] (id absent from the catalog):
the external process IS invoked (count 1, not 0) and the engine then dies
on `KeyError` instead of reporting UNKNOWN. -/
theorem unknown_probe_cex :
    verifyRun (fun _ => RunOutcome.done "" "") [99] 0
      = (EngineResult.err (PyErr.keyError "99"), 1) := by decide

/-- C6 amended: an unknown probe id is not rejected before running
anything; after all earlier probes pass, the engine invokes the external
process for the unknown id too (k+1 invocations) and only then crashes
with an uncaught `KeyError` at the catalog lookup, rather than reporting
UNKNOWN. -/
theorem unknown_probe_key_error (runner : Nat → RunOutcome) (pre : List Nat)
    (d : Nat) (post : List Nat) (out errout : String)
    (hpre : ∀ x ∈ pre, probeStep x (runner x) = StepOut.ok)
    (hu : lunaLookup d = none) (hr : runner d = RunOutcome.done out errout) :
    verifyRun runner (pre ++ d :: post) 0
      = (EngineResult.err (PyErr.keyError (toString d)), pre.length + 1) := by
  rw [verifyRun_append_ok runner pre _ hpre 0]
  simp [verifyRun, probeStep, hr, hu]

/-- Witness for C6 amended: probe 3 passes, then unknown id 99 crashes the
engine after its own invocation; two invocations, probe 11 never reached. -/
theorem unknown_probe_key_error_witness :
    verifyRun
      (fun x => if x = 99 then RunOutcome.done "" "x" else RunOutcome.done "Test passed" "")
      [3, 99, 11] 0
      = (EngineResult.err (PyErr.keyError "99"), 2) := by
  have h := unknown_probe_key_error
    (fun x => if x = 99 then RunOutcome.done "" "x" else RunOutcome.done "Test passed" "")
    [3] 99 [11] "" "x" (by decide) (by decide) (by decide)
  simpa using h

/-- C9: a container header line only switches the context state and does
not reset `space_info` (only a blank line does): after a second header with
no intervening blank line, a `Used: <v>` line is divided by the `Total`
captured under the EARLIER header (`info.total = some t`), and the message
carries the NEW context name `s`. The initial state `st0` is arbitrary. -/
theorem header_preserves_space_info (h2 lu : String) (rest : List String)
    (st0 : Option String) (s : String) (info : SpaceInfo) (t : ℚ) (v : Nat)
    (hh : findHeader h2.data = some s)
    (hlh : findHeader lu.data = none) (hlb : isBlankLine lu = false)
    (hlt : findTU lu.data = some ("Used", v))
    (htot : info.total = some t) (ht0 : ¬t = 0) :
    vtiGo (h2 :: lu :: rest) st0 info =
      (if 100 * (v : ℚ) / t ≥ DISK_LIMIT_CRITICAL then
        VtiResult.exit (diskMsg s (100 * (v : ℚ) / t)) NAGIOS_CRITICAL
      else if 100 * (v : ℚ) / t ≥ DISK_LIMIT_WARN then
        VtiResult.err (PyErr.attributeError "NAGIOS_WARN")
      else vtiGo rest (some s) { info with used := some (v : ℚ) }) := by
  simp [vtiGo, hh, hlh, hlb, hlt, htot, ht0]

/-- Witness for C9: `Total: 1000` captured under the User header is used
for the `Used: 960` line that follows an SO header with no blank line in
between; the CRITICAL message names the SO context. -/
theorem header_preserves_space_info_witness :
    vtiGo ["SO Container Storage Info", "Used: 960"] (some "User")
      { total := some 1000 }
      = VtiResult.exit "HSM SO disk usage:  96.00 exceeded threshold!!!" 2 := by
  have h := header_preserves_space_info "SO Container Storage Info" "Used: 960" []
    (some "User") "SO" { total := some 1000 } 1000 960
    (by decide) (by decide) (by decide) (by decide) rfl (by decide)
  rw [h]
  with_unfolding_all decide

/-- C10: however many times the checker is constructed without an explicit
probe list in one process (the default list object is shared and mutated
in place), the resulting `diag_list` is exactly the key list of the catalog: it
has the 12 catalog ids, each exactly once (`Nodup` + the membership
equivalence), because the shared default is filled from the catalog on the
first construction and left untouched afterwards. -/
theorem default_diag_list_each_id_once (n : Nat) (k : Nat) :
    constructN (n + 1) = lunaKeys
    ∧ lunaKeys.Nodup
    ∧ lunaKeys.length = 12
    ∧ (k ∈ lunaKeys ↔ (lunaLookup k).isSome) := by
  refine ⟨?_, by decide, by decide, ?_⟩
  · induction n with
    | zero => decide
    | succ p ih =>
      show initDiagList (constructN (p + 1)) = lunaKeys
      rw [ih]
      decide
  · exact (lookup_isSome_iff_mem_keys k luna_info).symm

end SafenetHsm
